import Mathlib

/-!
Shallow embedding of `cas-authentication-middleware` (src/lib/cas-authentication.js)
for checking its natural-language specification.

The JavaScript values that flow through the library (parsed XML results from
`xml2js` with `explicitArray: false`, the options object, Express session and
query objects) are modelled by the inductive type `JSVal`.  XML parsing itself
is not modelled: an operation that starts with `parseXML` takes the parse
outcome as input, `none` standing for a parse error (the `err` branch of the
callback) and `some v` for the decoded value handed to the callback.
-/

set_option autoImplicit false

namespace CasAuth

/-- A JavaScript value, as produced by `xml2js` / passed around the module. -/
inductive JSVal where
  | undefined : JSVal
  | null : JSVal
  | bool : Bool → JSVal
  | num : Int → JSVal
  | str : String → JSVal
  | obj : List (String × JSVal) → JSVal

/-- JavaScript truthiness (`if (v)`). -/
def truthy : JSVal → Bool
  | .undefined => false
  | .null => false
  | .bool b => b
  | .num n => n != 0
  | .str s => s != ""
  | .obj _ => true

/-- JavaScript `typeof v`. -/
def jsTypeof : JSVal → String
  | .undefined => "undefined"
  | .null => "object"
  | .bool _ => "boolean"
  | .num _ => "number"
  | .str _ => "string"
  | .obj _ => "object"

/-- JavaScript string coercion, used for `+` with a string and computed keys. -/
def jsToString : JSVal → String
  | .undefined => "undefined"
  | .null => "null"
  | .bool b => if b then "true" else "false"
  | .num n => toString n
  | .str s => s
  | .obj _ => "[object Object]"

/-- JavaScript strict equality `v === "s"` against a string literal. -/
def jsStrEq : JSVal → String → Bool
  | .str t, s => t == s
  | _, _ => false

/-- First binding of key `k` in an association list (JS objects have unique
keys, so first = only). -/
def lookupStr (k : String) : List (String × JSVal) → Option JSVal
  | [] => none
  | kv :: rest => if kv.1 == k then some kv.2 else lookupStr k rest

/-- A JavaScript `TypeError` (property access on `undefined`/`null`,
`Object.keys(null)`, ...). -/
inductive JSTypeError where
  | typeError

/-- JavaScript property access `v.k`.  Throws a `TypeError` on `undefined` and
`null`; on other primitives it yields `undefined` (none of the keys this module
reads — `serviceresponse`, `authenticationfailure`, `user`, `$`, `_`,
`logoutrequest`, `sessionindex`, ... — is a built-in property of a primitive). -/
def getProp : JSVal → String → Except JSTypeError JSVal
  | .undefined, _ => .error .typeError
  | .null, _ => .error .typeError
  | .obj fields, k => .ok ((lookupStr k fields).getD .undefined)
  | _, _ => .ok .undefined

/-- Member access on a JS object given as a field list, `o[k]`
(`undefined` when the key is absent). -/
def memberAccess (l : List (String × JSVal)) (k : String) : JSVal :=
  (lookupStr k l).getD .undefined

/-! ## validateTicket (src/lib/cas-authentication.js lines 36-71) -/

/-- Outcome of the promise returned by `validateTicket`. -/
inductive VResult where
  /-- parse error: `reject(new Error("Response from CAS server was bad."))` -/
  | badResponse : VResult
  /-- `reject(\x7b errorMessage, code, description \x7d)` from the
  `authenticationfailure` branch -/
  | authFailure (code description : JSVal) : VResult
  /-- `resolve(\x7b user, attributes \x7d)` -/
  | success (user attributes : JSVal) : VResult
  /-- `reject(new Error("CAS authentication failed."))`, neither element case -/
  | genericFailure : VResult
  /-- a `TypeError` raised inside the callback (no `try`/`catch` here) -/
  | typeError : VResult

/-- The body of the `parseXML` callback of `validateTicket`, applied to the
decoded `result` value.  It reads `result.serviceresponse.authenticationfailure`
first; if that is truthy it rejects with `failure.$.code` / `failure._`, else it
reads `result.serviceresponse.authenticationsuccess` and resolves with
`success.user` / `success.attributes`, else rejects generically.  A property
access on `undefined`/`null` raises a `TypeError`. -/
def validateTicketCallback (result : JSVal) : VResult :=
  match getProp result "serviceresponse" with
  | .error _ => .typeError
  | .ok sr =>
    match getProp sr "authenticationfailure" with
    | .error _ => .typeError
    | .ok failure =>
      if truthy failure then
        match getProp failure "$" with
        | .error _ => .typeError
        | .ok dollar =>
          match getProp dollar "code" with
          | .error _ => .typeError
          | .ok code =>
            match getProp failure "_" with
            | .error _ => .typeError
            | .ok description => .authFailure code description
      else
        match getProp sr "authenticationsuccess" with
        | .error _ => .typeError
        | .ok success =>
          if truthy success then
            match getProp success "user" with
            | .error _ => .typeError
            | .ok user =>
              match getProp success "attributes" with
              | .error _ => .typeError
              | .ok attributes => .success user attributes
          else .genericFailure

/-- The operation `validateTicket`, as a function of the XML parse outcome of its `body`
argument: `none` is the `err` branch of the `parseXML` callback, `some result`
the decoded document. -/
def validateTicket : Option JSVal → VResult
  | none => .badResponse
  | some result => validateTicketCallback result

/-! ## getTicketFromLogoutRequest (lines 79-119) -/

/-- Outcome of the promise returned by `getTicketFromLogoutRequest`. -/
inductive LResult where
  /-- parse error: `reject(new Error("Response from CAS server was bad."))` -/
  | badResponse : LResult
  /-- `resolve(serviceTicket)` -/
  | ticket (t : JSVal) : LResult
  /-- `reject(\x7b errorMessage: "no valid CAS logout document",
  code: "NO_VALID_CAS_LOGOUT", ... \x7d)` -/
  | noValidLogout : LResult
  /-- the `catch` branch: `reject(new Error("CAS authentication failed."))` -/
  | caughtError : LResult

/-- Body of the `parseXML` callback of `getTicketFromLogoutRequest`: inside a
`try`, reads `result.logoutrequest.sessionindex`; a truthy value is resolved,
a falsy one rejected with `NO_VALID_CAS_LOGOUT`; a `TypeError` (e.g. missing
`logoutrequest` root, so the second access is on `undefined`) is caught and
rejected as a generic error. -/
def getTicketCallback (result : JSVal) : LResult :=
  match getProp result "logoutrequest" with
  | .error _ => .caughtError
  | .ok lr =>
    match getProp lr "sessionindex" with
    | .error _ => .caughtError
    | .ok serviceTicket =>
      if truthy serviceTicket then .ticket serviceTicket else .noValidLogout

/-- The operation `getTicketFromLogoutRequest`, as a function of the XML parse outcome of its
`body` argument. -/
def getTicketFromLogoutRequest : Option JSVal → LResult
  | none => .badResponse
  | some result => getTicketCallback result

/-! ## the options object and setOptions (lines 19-29 and 247-280) -/

/-- The module-global `options` object (lines 19-29).  All fields hold plain
JS values, since `setOptions` copies arbitrary values from the caller. -/
structure CasOptions where
  casServer : JSVal
  serviceUrl : JSVal
  sessionInfo : JSVal
  sessionName : JSVal
  cas_version : JSVal
  renew : JSVal
  destroy_session : JSVal
  devMode : JSVal
  devModeUser : JSVal

/-- The initial value of the `options` object. -/
def defaultOptions : CasOptions where
  casServer := .null
  serviceUrl := .null
  sessionInfo := .str "cas_userinfo"
  sessionName := .str "cas_user"
  cas_version := .str "2.0"
  renew := .bool false
  destroy_session := .bool false
  devMode := .bool false
  devModeUser := .null

/-- The own keys of the `options` object; `hasOwnProperty(options, k)` is
membership in this list. -/
def optionKeys : List String :=
  ["casServer", "serviceUrl", "sessionInfo", "sessionName", "cas_version",
   "renew", "destroy_session", "devMode", "devModeUser"]

/-- The assignment `options[k] = v` for a key `k` that the options object owns; any other key
leaves the object unchanged (the `hasOwnProperty` guard, lines 256-260). -/
def setKnown (o : CasOptions) (k : String) (v : JSVal) : CasOptions :=
  if k == "casServer" then { o with casServer := v }
  else if k == "serviceUrl" then { o with serviceUrl := v }
  else if k == "sessionInfo" then { o with sessionInfo := v }
  else if k == "sessionName" then { o with sessionName := v }
  else if k == "cas_version" then { o with cas_version := v }
  else if k == "renew" then { o with renew := v }
  else if k == "destroy_session" then { o with destroy_session := v }
  else if k == "devMode" then { o with devMode := v }
  else if k == "devModeUser" then { o with devModeUser := v }
  else o

/-- The `options` record seen as the JS object it is (always a non-null
object, whatever its fields hold). -/
def optionsJS (o : CasOptions) : JSVal :=
  .obj [("casServer", o.casServer), ("serviceUrl", o.serviceUrl),
        ("sessionInfo", o.sessionInfo), ("sessionName", o.sessionName),
        ("cas_version", o.cas_version), ("renew", o.renew),
        ("destroy_session", o.destroy_session), ("devMode", o.devMode),
        ("devModeUser", o.devModeUser)]

/-- Model of `Object.keys(v)` paired with the values `v[key]`, as used by the
`forEach` copy loop.  Throws a `TypeError` on `null`/`undefined`; on a string
it enumerates the character indices; on other primitives it is empty. -/
def objectKeys : JSVal → Except JSTypeError (List (String × JSVal))
  | .undefined => .error .typeError
  | .null => .error .typeError
  | .obj fields => .ok fields
  | .str s => .ok (s.toList.enum.map fun p => (toString p.1, .str (String.singleton p.2)))
  | _ => .ok []

/-- The `forEach` copy loop of `setOptions` (lines 256-260): each supplied
key/value pair is applied to the options object if the key is a known one. -/
def mergeOptions (o : CasOptions) (kvs : List (String × JSVal)) : CasOptions :=
  kvs.foldl (fun acc kv => setKnown acc kv.1 kv.2) o

/-- The ways `setOptions` can throw. -/
inductive SetOptionsError where
  /-- `"CAS Authentication was not given a valid configuration object."` -/
  | invalidConfigObject : SetOptionsError
  /-- the `TypeError` from `Object.keys(null)` / `Object.keys(undefined)` -/
  | jsTypeError : SetOptionsError
  /-- `"CAS Authentication requires a casServer parameter."` -/
  | missingCasServer : SetOptionsError
  /-- `"The supplied CAS version (...) is not supported."` -/
  | unsupportedVersion : SetOptionsError

/-- The function `setOptions(_options)` (lines 247-280), acting on the current global
`options` value `current` and the caller-supplied `input`.  Note that the
initial guard in the source tests the module-global `options` — not the
`_options` parameter — exactly as written:
`if (!options || typeof options !== "object")`. -/
def setOptions (current : CasOptions) (input : JSVal) :
    Except SetOptionsError CasOptions :=
  if !truthy (optionsJS current) || jsTypeof (optionsJS current) != "object" then
    .error .invalidConfigObject
  else
    match objectKeys input with
    | .error _ => .error .jsTypeError
    | .ok kvs =>
      let merged := mergeOptions current kvs
      if !truthy merged.casServer then .error .missingCasServer
      else if !jsStrEq merged.cas_version "2.0" && !jsStrEq merged.cas_version "3.0" then
        .error .unsupportedVersion
      else .ok merged

/-- Holds (`true`) exactly on the "was not given a valid configuration object" error. -/
def isInvalidConfigError : Except SetOptionsError CasOptions → Bool
  | .error .invalidConfigObject => true
  | _ => false

/-! ## handleTicketAjax (lines 207-240): the validation request it builds -/

/-- The `requestOptions` value handed to `request.get`. -/
structure RequestOptions where
  uri : String
  qs : List (String × JSVal)

/-- The `requestOptions` built by `handleTicketAjax` (lines 212-224): defined
(`some`) only when `["1.0","2.0","3.0"].indexOf(options.cas_version) >= 0`;
the uri is `options.casServer` + `/p3/serviceValidate` for version `"3.0"`,
`/serviceValidate` otherwise, and the query holds exactly `service` and
`ticket`. -/
def handleTicketAjaxRequest (o : CasOptions) (ticket serviceUrl : JSVal) :
    Option RequestOptions :=
  if jsStrEq o.cas_version "1.0" || jsStrEq o.cas_version "2.0"
      || jsStrEq o.cas_version "3.0" then
    some { uri := jsToString o.casServer ++
             (if jsStrEq o.cas_version "3.0" then "/p3/serviceValidate"
              else "/serviceValidate"),
           qs := [("service", serviceUrl), ("ticket", ticket)] }
  else none

/-! ## login (lines 144-167) -/

/-- The `query` object the `login` function builds (lines 151-158): always
`service`, plus `renew = "true"` exactly when `options.renew` is truthy. -/
def loginQuery (o : CasOptions) : List (String × JSVal) :=
  [("service", o.serviceUrl)] ++
    (if truthy o.renew then [("renew", JSVal.str "true")] else [])

/-- JS `pathname.endsWith("/")`: the last character is a slash. -/
def endsWithSlash (p : String) : Bool :=
  p.data.getLast? == some '/'

/-- The pathname update of line 162:
`casServer.pathname += (pathname.endsWith("/") ? "" : "/") + "login"`. -/
def loginPathname (p : String) : String :=
  p ++ ((if endsWithSlash p then "" else "/") ++ "login")

/-! ## destroySession and logout (lines 173-198) -/

/-- What `destroySession` does to the session. -/
inductive SessionEffect where
  /-- `req.session.destroy(cb)` was called; a store error, if any, is passed to
  the callback, which only logs it -/
  | storeDestroy (loggedError : Option JSVal) : SessionEffect
  /-- the two `delete` statements ran, leaving this session object -/
  | deleteFields (newSession : List (String × JSVal)) : SessionEffect

/-- JS `delete session[k]`: the binding for `k` is removed, everything else is
kept in place (JS objects hold at most one binding per key). -/
def deleteKey : List (String × JSVal) → String → List (String × JSVal)
  | [], _ => []
  | kv :: rest, k => if kv.1 == k then deleteKey rest k else kv :: deleteKey rest k

/-- The function `destroySession(req)` (lines 173-189).  `storeErr` is the error (if any)
the session store would report to the `destroy` callback; it is only ever
logged, never rethrown, and is irrelevant on the `delete` branch. -/
def destroySession (o : CasOptions) (session : List (String × JSVal))
    (storeErr : Option JSVal) : SessionEffect :=
  if truthy o.destroy_session then .storeDestroy storeErr
  else
    let s := deleteKey session (jsToString o.sessionName)
    .deleteFields (if truthy o.sessionInfo then deleteKey s (jsToString o.sessionInfo) else s)

/-- The function `logout(req, res)` (lines 194-198): destroy the session, then redirect to
`options.casServer + "/logout"`. -/
def logout (o : CasOptions) (session : List (String × JSVal))
    (storeErr : Option JSVal) : SessionEffect × String :=
  (destroySession o session storeErr, jsToString o.casServer ++ "/logout")

/-! ## bounce_redirect (lines 126-139) -/

/-- What `bounce_redirect` does with a request. -/
inductive BounceAction where
  /-- `res.redirect(target)` -/
  | redirect (target : JSVal) : BounceAction
  /-- fall through to `login(req, res, next)` -/
  | doLogin : BounceAction

/-- The middleware `bounce_redirect(req, res, next)` (lines 126-139), given the request's
session and query objects.  (`casHelpers.checkSession`, which is outside this
file, only ensures `req.session` exists; the session object is taken as
given.)  Note the condition tests `req.query.redirectTo` while the redirect
target is `req.query.returnTo`, exactly as in the source. -/
def bounce_redirect (o : CasOptions) (session query : List (String × JSVal)) :
    BounceAction :=
  if truthy (memberAccess session (jsToString o.sessionName)) then
    if truthy (memberAccess query "redirectTo") then
      .redirect (memberAccess query "returnTo")
    else
      .redirect (memberAccess session "cas_return_to")
  else .doLogin

/-! ## Theorems for the claims -/

/-- C1: whenever the decoded validation response has an authentication-failure
element (a truthy `serviceresponse.authenticationfailure`), `validateTicket`
never resolves with `Success` — even if an authentication-success element is
also present — and, when the failure element carries a `code` attribute and
text, it rejects with exactly that code and description. -/
theorem validateTicket_failure_precedence
    (result sr failure : JSVal)
    (hsr : getProp result "serviceresponse" = .ok sr)
    (hf : getProp sr "authenticationfailure" = .ok failure)
    (ht : truthy failure = true) :
    (∀ u a, validateTicket (some result) ≠ VResult.success u a) ∧
    (∀ dollar code description,
      getProp failure "$" = .ok dollar →
      getProp dollar "code" = .ok code →
      getProp failure "_" = .ok description →
      validateTicket (some result) = VResult.authFailure code description) := by
  constructor
  · intro u a
    simp only [validateTicket, validateTicketCallback, hsr, hf, ht, if_true]
    cases h1 : getProp failure "$" with
    | error e => simp
    | ok dollar =>
      cases h2 : getProp dollar "code" with
      | error e => simp [h2]
      | ok code =>
        cases h3 : getProp failure "_" with
        | error e => simp [h2, h3]
        | ok description => simp [h2, h3]
  · intro dollar code description h1 h2 h3
    simp [validateTicket, validateTicketCallback, hsr, hf, ht, h1, h2, h3]

/-- A decoded response document carrying both an authentication-failure and an
authentication-success element. -/
def bothFailure : JSVal :=
  .obj [("$", .obj [("code", .str "INVALID_TICKET")]),
        ("_", .str "Ticket not recognized")]

/-- The `serviceresponse` value of `bothElementsDoc`. -/
def bothSr : JSVal :=
  .obj [("authenticationfailure", bothFailure),
        ("authenticationsuccess", .obj [("user", .str "alice")])]

/-- A decoded document with both failure and success elements. -/
def bothElementsDoc : JSVal := .obj [("serviceresponse", bothSr)]

/-- Witness for C1: on a document carrying both elements, the failure wins. -/
theorem validateTicket_failure_precedence_witness :
    (∀ u a, validateTicket (some bothElementsDoc) ≠ VResult.success u a) ∧
    validateTicket (some bothElementsDoc) =
      VResult.authFailure (JSVal.str "INVALID_TICKET")
        (JSVal.str "Ticket not recognized") := by
  have h := validateTicket_failure_precedence bothElementsDoc bothSr bothFailure
      rfl rfl rfl
  exact ⟨h.1, h.2 (JSVal.obj [("code", JSVal.str "INVALID_TICKET")])
      (JSVal.str "INVALID_TICKET") (JSVal.str "Ticket not recognized") rfl rfl rfl⟩

/-- C2 counterexample: a well-formed document whose root is not
`logoutRequest` (here `\x3cfoo\x3ex\x3c/foo\x3e`, decoded as an object with
only a `foo` key) makes `getTicketFromLogoutRequest` reject through its
`catch` with the generic "CAS authentication failed." error — not with the
`NO_VALID_CAS_LOGOUT` rejection the claim requires. -/
theorem getTicket_missing_root_counterexample :
    getTicketFromLogoutRequest (some (JSVal.obj [("foo", JSVal.str "x")])) =
      LResult.caughtError ∧
    LResult.caughtError ≠ LResult.noValidLogout :=
  ⟨rfl, fun h => LResult.noConfusion h⟩

/-- C2 amended: when the decoded document does have a `logoutrequest` root (so
the `sessionindex` read does not throw), a truthy session-index resolves
verbatim and a falsy/absent one rejects with `NO_VALID_CAS_LOGOUT`; an XML
parse error gives the distinct `badResponse` rejection.  (A missing root
instead lands in the `catch` branch, per the counterexample.) -/
theorem getTicketFromLogoutRequest_amended
    (result lr st : JSVal)
    (hlr : getProp result "logoutrequest" = .ok lr)
    (hst : getProp lr "sessionindex" = .ok st) :
    (truthy st = true → getTicketFromLogoutRequest (some result) = LResult.ticket st) ∧
    (truthy st = false →
      getTicketFromLogoutRequest (some result) = LResult.noValidLogout) ∧
    getTicketFromLogoutRequest none = LResult.badResponse := by
  refine ⟨?_, ?_, rfl⟩ <;> intro h <;>
    simp [getTicketFromLogoutRequest, getTicketCallback, hlr, hst, h]

/-- Witness for the amended C2 at two concrete logout documents. -/
theorem getTicketFromLogoutRequest_amended_witness :
    getTicketFromLogoutRequest (some (JSVal.obj [("logoutrequest",
        JSVal.obj [("sessionindex", JSVal.str "ST-123")])])) =
      LResult.ticket (JSVal.str "ST-123") ∧
    getTicketFromLogoutRequest (some (JSVal.obj [("logoutrequest", JSVal.obj [])])) =
      LResult.noValidLogout :=
  ⟨(getTicketFromLogoutRequest_amended
      (JSVal.obj [("logoutrequest", JSVal.obj [("sessionindex", JSVal.str "ST-123")])])
      (JSVal.obj [("sessionindex", JSVal.str "ST-123")]) (JSVal.str "ST-123")
      rfl rfl).1 rfl,
   ((getTicketFromLogoutRequest_amended
      (JSVal.obj [("logoutrequest", JSVal.obj [])])
      (JSVal.obj []) JSVal.undefined rfl rfl).2).1 rfl⟩

/-- C7 counterexample: on well-formed XML whose root is not `serviceResponse`
(decoded here as an object with only a `foo` key), the callback's read of
`result.serviceresponse.authenticationfailure` raises a `TypeError` — the
outcome is neither the generic "authentication failed" rejection the claim
requires for documents lacking both elements, nor `badResponse`. -/
theorem validateTicket_wrong_root_counterexample :
    validateTicket (some (JSVal.obj [("foo", JSVal.str "x")])) = VResult.typeError ∧
    VResult.typeError ≠ VResult.genericFailure ∧
    VResult.typeError ≠ VResult.badResponse :=
  ⟨rfl, fun h => VResult.noConfusion h, fun h => VResult.noConfusion h⟩

/-- C7 amended: a parse failure rejects with the "bad response" error, and a
decoded document whose `serviceresponse` root is present but carries neither
an authentication-failure nor an authentication-success element rejects with
the generic "CAS authentication failed." error; only when the
`serviceresponse` root itself is missing does the callback instead raise a
`TypeError` (per the counterexample). -/
theorem validateTicket_amended
    (result sr failure success : JSVal)
    (hsr : getProp result "serviceresponse" = .ok sr)
    (hf : getProp sr "authenticationfailure" = .ok failure)
    (hft : truthy failure = false)
    (hs : getProp sr "authenticationsuccess" = .ok success)
    (hst : truthy success = false) :
    validateTicket (some result) = VResult.genericFailure ∧
    validateTicket none = VResult.badResponse := by
  refine ⟨?_, rfl⟩
  simp [validateTicket, validateTicketCallback, hsr, hf, hft, hs, hst]

/-- Witness for the amended C7 at `\x3cserviceResponse/\x3e` (an empty
`serviceresponse` root). -/
theorem validateTicket_amended_witness :
    validateTicket (some (JSVal.obj [("serviceresponse", JSVal.obj [])])) =
      VResult.genericFailure ∧
    validateTicket none = VResult.badResponse :=
  validateTicket_amended (JSVal.obj [("serviceresponse", JSVal.obj [])])
    (JSVal.obj []) JSVal.undefined JSVal.undefined rfl rfl rfl rfl rfl

/-! ### Helper lemmas shared by the configuration claims -/

theorem jsStrEq_true_iff (v : JSVal) (s : String) :
    jsStrEq v s = true ↔ v = JSVal.str s := by
  cases v <;> simp [jsStrEq]

/-- The initial guard of `setOptions` tests the module-global `options`
object, which is always a non-null object, so the tested condition is `false`
whatever the current options hold. -/
theorem setOptions_guard_false (current : CasOptions) :
    (!truthy (optionsJS current) || (jsTypeof (optionsJS current) != "object")) = false :=
  rfl

/-- Evaluation of `setOptions` on an object input: the guard cannot fire and `Object.keys`
yields the fields, leaving the merge and the two validations. -/
theorem setOptions_obj (current : CasOptions) (kvs : List (String × JSVal)) :
    setOptions current (JSVal.obj kvs) =
      (if !truthy (mergeOptions current kvs).casServer then .error .missingCasServer
       else if !jsStrEq (mergeOptions current kvs).cas_version "2.0"
            && !jsStrEq (mergeOptions current kvs).cas_version "3.0" then
         .error .unsupportedVersion
       else .ok (mergeOptions current kvs)) := rfl

/-- The state of `defaultOptions` after a successful `init` that only set `casServer`. -/
def configuredOptions : CasOptions :=
  { defaultOptions with casServer := JSVal.str "http://cas.example.com" }

/-- The options `configuredOptions` switched to protocol version `"3.0"`. -/
def v3Options : CasOptions :=
  { configuredOptions with cas_version := JSVal.str "3.0" }

/-- C3: for any configured protocol version in 1.0/2.0/3.0, the validation
request goes to `casServer + "/p3/serviceValidate"` exactly when the version
is `"3.0"` and to `casServer + "/serviceValidate"` otherwise, with query
parameters exactly `service` and `ticket`. -/
theorem handleTicketAjax_endpoint
    (o : CasOptions) (ticket serviceUrl : JSVal)
    (hv : o.cas_version = JSVal.str "1.0" ∨ o.cas_version = JSVal.str "2.0" ∨
          o.cas_version = JSVal.str "3.0") :
    (o.cas_version = JSVal.str "3.0" →
      handleTicketAjaxRequest o ticket serviceUrl =
        some ⟨jsToString o.casServer ++ "/p3/serviceValidate",
              [("service", serviceUrl), ("ticket", ticket)]⟩) ∧
    (o.cas_version ≠ JSVal.str "3.0" →
      handleTicketAjaxRequest o ticket serviceUrl =
        some ⟨jsToString o.casServer ++ "/serviceValidate",
              [("service", serviceUrl), ("ticket", ticket)]⟩) := by
  constructor
  · intro h3
    simp [handleTicketAjaxRequest, h3, jsStrEq]
  · intro h3
    rcases hv with h | h | h
    · simp [handleTicketAjaxRequest, h, jsStrEq]
    · simp [handleTicketAjaxRequest, h, jsStrEq]
    · exact absurd h h3

/-- Witness for C3 at versions `"3.0"` and `"2.0"`. -/
theorem handleTicketAjax_endpoint_witness :
    handleTicketAjaxRequest v3Options (JSVal.str "ST-1") (JSVal.str "http://app/") =
      some ⟨"http://cas.example.com/p3/serviceValidate",
            [("service", JSVal.str "http://app/"), ("ticket", JSVal.str "ST-1")]⟩ ∧
    handleTicketAjaxRequest configuredOptions (JSVal.str "ST-1") (JSVal.str "http://app/") =
      some ⟨"http://cas.example.com/serviceValidate",
            [("service", JSVal.str "http://app/"), ("ticket", JSVal.str "ST-1")]⟩ := by
  constructor
  · exact (handleTicketAjax_endpoint v3Options (JSVal.str "ST-1")
      (JSVal.str "http://app/") (Or.inr (Or.inr rfl))).1 rfl
  · exact (handleTicketAjax_endpoint configuredOptions (JSVal.str "ST-1")
      (JSVal.str "http://app/") (Or.inr (Or.inl rfl))).2
      (by intro hc; simp [configuredOptions, defaultOptions] at hc)

/-- C4 counterexample: the claim says version `"1.0"` is accepted, but
`setOptions` rejects it — the version check only admits `"2.0"` and `"3.0"`
even though a casServer is supplied. -/
theorem setOptions_rejects_version_one :
    setOptions defaultOptions (JSVal.obj
      [("casServer", JSVal.str "http://cas.example.com"),
       ("cas_version", JSVal.str "1.0")]) =
      Except.error SetOptionsError.unsupportedVersion := rfl

/-- C4 amended: initialization on an option object succeeds exactly when,
after merging the known keys, the casServer is set (truthy) and the protocol
version is `"2.0"` or `"3.0"`; it fails (throws) otherwise — so a missing
casServer or a version such as `"1.0"` or `"4.0"` is always rejected. -/
theorem setOptions_accepts_iff (kvs : List (String × JSVal)) :
    (∃ o, setOptions defaultOptions (JSVal.obj kvs) = Except.ok o) ↔
      (truthy (mergeOptions defaultOptions kvs).casServer = true ∧
       ((mergeOptions defaultOptions kvs).cas_version = JSVal.str "2.0" ∨
        (mergeOptions defaultOptions kvs).cas_version = JSVal.str "3.0")) := by
  constructor
  · rintro ⟨o, ho⟩
    rw [setOptions_obj] at ho
    rcases Bool.eq_false_or_eq_true
        (truthy (mergeOptions defaultOptions kvs).casServer) with h1 | h1
    · refine ⟨h1, ?_⟩
      rcases Bool.eq_false_or_eq_true
          (jsStrEq (mergeOptions defaultOptions kvs).cas_version "2.0") with h2 | h2
      · exact Or.inl ((jsStrEq_true_iff _ _).1 h2)
      · rcases Bool.eq_false_or_eq_true
            (jsStrEq (mergeOptions defaultOptions kvs).cas_version "3.0") with h3 | h3
        · exact Or.inr ((jsStrEq_true_iff _ _).1 h3)
        · rw [h1, h2, h3] at ho; exact Except.noConfusion ho
    · rw [h1] at ho; exact Except.noConfusion ho
  · rintro ⟨h1, h2⟩
    rw [setOptions_obj]
    refine ⟨mergeOptions defaultOptions kvs, ?_⟩
    have h2f : (!jsStrEq (mergeOptions defaultOptions kvs).cas_version "2.0"
        && !jsStrEq (mergeOptions defaultOptions kvs).cas_version "3.0") = false := by
      rcases h2 with h2 | h2 <;> rw [h2] <;> simp [jsStrEq]
    rw [h1, h2f]
    simp

/-- Witness for the amended C4: supplying only a casServer (version defaults
to `"2.0"`) is accepted. -/
theorem setOptions_accepts_iff_witness :
    ∃ o, setOptions defaultOptions (JSVal.obj
      [("casServer", JSVal.str "http://cas.example.com")]) = Except.ok o :=
  (setOptions_accepts_iff [("casServer", JSVal.str "http://cas.example.com")]).2
    ⟨rfl, Or.inl rfl⟩

/-- C5 counterexample: an option object with the unknown key `bogus` is not
rejected — `setOptions` succeeds and simply drops the key. -/
theorem setOptions_unknown_key_accepted :
    setOptions defaultOptions (JSVal.obj
      [("casServer", JSVal.str "http://cas.example.com"),
       ("bogus", JSVal.str "y")]) = Except.ok configuredOptions := rfl

/-- C5 amended: unknown keys are silently ignored, not rejected: copying an
unrecognized key is a no-op, so appending an unknown key to the supplied
options leaves the outcome of `setOptions` unchanged. -/
theorem setOptions_ignores_unknown_keys
    (o : CasOptions) (k : String) (v : JSVal) (kvs : List (String × JSVal))
    (h : k ∉ optionKeys) :
    setKnown o k v = o ∧
    setOptions defaultOptions (JSVal.obj (kvs ++ [(k, v)])) =
      setOptions defaultOptions (JSVal.obj kvs) := by
  have hk : ∀ o2 : CasOptions, setKnown o2 k v = o2 := by
    intro o2
    simp only [optionKeys, List.mem_cons, List.not_mem_nil, or_false, not_or] at h
    obtain ⟨h1, h2, h3, h4, h5, h6, h7, h8, h9⟩ := h
    simp [setKnown, beq_iff_eq, h1, h2, h3, h4, h5, h6, h7, h8, h9]
  refine ⟨hk o, ?_⟩
  rw [setOptions_obj, setOptions_obj]
  have hmerge : mergeOptions defaultOptions (kvs ++ [(k, v)]) =
      mergeOptions defaultOptions kvs := by
    unfold mergeOptions
    rw [List.foldl_append]
    simp [hk]
  rw [hmerge]

/-- Witness for the amended C5 with the unknown key `bogus`. -/
theorem setOptions_ignores_unknown_keys_witness :
    "bogus" ∉ optionKeys ∧
    setKnown defaultOptions "bogus" (JSVal.str "y") = defaultOptions ∧
    setOptions defaultOptions (JSVal.obj
      [("casServer", JSVal.str "http://cas.example.com"),
       ("bogus", JSVal.str "y")]) =
      setOptions defaultOptions (JSVal.obj
        [("casServer", JSVal.str "http://cas.example.com")]) := by
  have h : "bogus" ∉ optionKeys := by decide
  have hmain := setOptions_ignores_unknown_keys defaultOptions "bogus"
    (JSVal.str "y") [("casServer", JSVal.str "http://cas.example.com")] h
  exact ⟨h, hmain.1, hmain.2⟩

/-- C6 (code bug): the "not a valid configuration object" guard of
`setOptions` tests the module-global `options` — which is always a non-null
object — instead of the `_options` parameter, so it can never fire for any
input; in particular a non-object input such as `true` is accepted outright
once the current options carry a casServer, instead of failing with
`InvalidConfiguration`. -/
theorem setOptions_guard_dead (current : CasOptions) (input : JSVal) :
    isInvalidConfigError (setOptions current input) = false ∧
    setOptions configuredOptions (JSVal.bool true) = Except.ok configuredOptions := by
  refine ⟨?_, rfl⟩
  simp only [setOptions, setOptions_guard_false, Bool.false_eq_true, if_false]
  cases hk : objectKeys input with
  | error e => rfl
  | ok kvs =>
    simp only []
    split
    · rfl
    · split
      · rfl
      · rfl

/-- C8: the login redirect carries query parameter `service` (the configured
service URL) always, and `renew` (with the literal string value `"true"`)
exactly when the `renew` option is truthy — when it is falsy the `renew`
parameter is absent altogether; the redirect path is the CAS server's
pathname extended with `/login`. -/
theorem login_redirect_query (o : CasOptions) :
    (truthy o.renew = true →
      loginQuery o = [("service", o.serviceUrl), ("renew", JSVal.str "true")]) ∧
    (truthy o.renew = false → loginQuery o = [("service", o.serviceUrl)]) ∧
    (∀ p : String, endsWithSlash p = false → loginPathname p = p ++ "/login") := by
  refine ⟨fun h => ?_, fun h => ?_, fun p hp => ?_⟩
  · simp [loginQuery, h]
  · simp [loginQuery, h]
  · unfold loginPathname
    rw [hp]
    rfl

/-- Witness for C8 with `renew` configured true resp. left at its default. -/
theorem login_redirect_query_witness :
    loginQuery { configuredOptions with renew := JSVal.bool true } =
      [("service", JSVal.null), ("renew", JSVal.str "true")] ∧
    loginQuery defaultOptions = [("service", JSVal.null)] ∧
    loginPathname "/cas" = "/cas/login" :=
  ⟨(login_redirect_query { configuredOptions with renew := JSVal.bool true }).1 rfl,
   (login_redirect_query defaultOptions).2.1 rfl,
   (login_redirect_query defaultOptions).2.2 "/cas" (by decide)⟩



/-! ### Session lookup/delete lemmas for the logout claim -/

theorem lookupStr_deleteKey_self (s : List (String × JSVal)) (k : String) :
    lookupStr k (deleteKey s k) = none := by
  induction s with
  | nil => rfl
  | cons kv rest ih =>
    by_cases h : kv.1 = k
    · simp [deleteKey, lookupStr, beq_iff_eq, bne_iff_ne, h, ih]
    · simp [deleteKey, lookupStr, beq_iff_eq, bne_iff_ne, h, ih]

theorem lookupStr_deleteKey_other (s : List (String × JSVal)) (k k2 : String)
    (h : k2 ≠ k) : lookupStr k2 (deleteKey s k) = lookupStr k2 s := by
  induction s with
  | nil => rfl
  | cons kv rest ih =>
    by_cases hk : kv.1 = k
    · simp [deleteKey, lookupStr, beq_iff_eq, bne_iff_ne, hk, Ne.symm h, ih]
    · by_cases hk2 : kv.1 = k2 <;>
        simp [deleteKey, lookupStr, beq_iff_eq, bne_iff_ne, hk, hk2, h, ih]

/-- C9: with the destroy-session flag falsy, `logout` removes the
session-user key and — only when a session-info key is configured (truthy) —
the session-info key, leaves every other session field unchanged, and
redirects to the CAS server's `/logout` endpoint; the store error channel is
never consulted on this branch. -/
theorem logout_removes_only_cas_fields
    (o : CasOptions) (session : List (String × JSVal)) (storeErr : Option JSVal)
    (hd : truthy o.destroy_session = false) :
    ∃ s2,
      logout o session storeErr =
        (SessionEffect.deleteFields s2, jsToString o.casServer ++ "/logout") ∧
      lookupStr (jsToString o.sessionName) s2 = none ∧
      (truthy o.sessionInfo = true →
        lookupStr (jsToString o.sessionInfo) s2 = none) ∧
      ∀ k, k ≠ jsToString o.sessionName →
        (truthy o.sessionInfo = true → k ≠ jsToString o.sessionInfo) →
        lookupStr k s2 = lookupStr k session := by
  rcases Bool.eq_false_or_eq_true (truthy o.sessionInfo) with hi | hi
  · refine ⟨deleteKey (deleteKey session (jsToString o.sessionName))
        (jsToString o.sessionInfo), ?_, ?_, ?_, ?_⟩
    · simp [logout, destroySession, hd, hi]
    · by_cases h : jsToString o.sessionName = jsToString o.sessionInfo
      · rw [← h]; exact lookupStr_deleteKey_self _ _
      · rw [lookupStr_deleteKey_other _ _ _ h]; exact lookupStr_deleteKey_self _ _
    · intro _; exact lookupStr_deleteKey_self _ _
    · intro k hk1 hk2
      rw [lookupStr_deleteKey_other _ _ _ (hk2 hi),
        lookupStr_deleteKey_other _ _ _ hk1]
  · refine ⟨deleteKey session (jsToString o.sessionName), ?_, ?_, ?_, ?_⟩
    · simp [logout, destroySession, hd, hi]
    · exact lookupStr_deleteKey_self _ _
    · intro hcontra; rw [hcontra] at hi; exact Bool.noConfusion hi
    · intro k hk _; exact lookupStr_deleteKey_other _ _ _ hk

/-- Witness for C9 on a session with a third, unrelated field. -/
theorem logout_removes_only_cas_fields_witness :
    truthy defaultOptions.destroy_session = false ∧
    ∃ s2,
      logout defaultOptions
          [("cas_user", JSVal.str "alice"), ("cas_userinfo", JSVal.obj []),
           ("other", JSVal.str "keep")] none =
        (SessionEffect.deleteFields s2,
         jsToString defaultOptions.casServer ++ "/logout") ∧
      lookupStr (jsToString defaultOptions.sessionName) s2 = none ∧
      (truthy defaultOptions.sessionInfo = true →
        lookupStr (jsToString defaultOptions.sessionInfo) s2 = none) ∧
      ∀ k, k ≠ jsToString defaultOptions.sessionName →
        (truthy defaultOptions.sessionInfo = true →
          k ≠ jsToString defaultOptions.sessionInfo) →
        lookupStr k s2 = lookupStr k [("cas_user", JSVal.str "alice"),
          ("cas_userinfo", JSVal.obj []), ("other", JSVal.str "keep")] :=
  ⟨rfl, logout_removes_only_cas_fields defaultOptions
    [("cas_user", JSVal.str "alice"), ("cas_userinfo", JSVal.obj []),
     ("other", JSVal.str "keep")] none rfl⟩

/-- C10: when the session already holds the session-user key,
`bounce_redirect` tests the query parameter `redirectTo` but redirects to the
value of the differently named parameter `returnTo` — so a request carrying a
truthy `redirectTo` without `returnTo` is redirected to `undefined`, and the
stored `cas_return_to` value is used only when `redirectTo` is absent/falsy. -/
theorem bounce_redirect_param_mismatch
    (o : CasOptions) (session query : List (String × JSVal))
    (hs : truthy (memberAccess session (jsToString o.sessionName)) = true) :
    (truthy (memberAccess query "redirectTo") = true →
      bounce_redirect o session query =
        BounceAction.redirect (memberAccess query "returnTo")) ∧
    (truthy (memberAccess query "redirectTo") = false →
      bounce_redirect o session query =
        BounceAction.redirect (memberAccess session "cas_return_to")) := by
  constructor <;> intro h <;> simp [bounce_redirect, hs, h]

/-- Witness for C10: a logged-in session and a query carrying only
`redirectTo` end in a redirect to `undefined`. -/
theorem bounce_redirect_param_mismatch_witness :
    truthy (memberAccess [("cas_user", JSVal.str "alice")]
      (jsToString defaultOptions.sessionName)) = true ∧
    bounce_redirect defaultOptions [("cas_user", JSVal.str "alice")]
        [("redirectTo", JSVal.str "/target")] =
      BounceAction.redirect JSVal.undefined :=
  ⟨rfl, (bounce_redirect_param_mismatch defaultOptions
    [("cas_user", JSVal.str "alice")] [("redirectTo", JSVal.str "/target")]
    rfl).1 rfl⟩

end CasAuth
